import Mathlib

/-!
Shallow embedding of `src/chart_script.py` (Fwea-Go/omni4).

The script builds a plotly figure by a fixed sequence of `add_shape`,
`add_annotation`, `update_layout` and `write_image` calls on literal data.
We model the figure as a record of lists that the calls append to, in the
exact order of the source, with coordinates as rationals.
-/

namespace ChartScript

attribute [local semireducible] Rat.add Rat.sub Rat.mul Rat.inv Rat.ofScientific

/-- Properties of one entry of the `components` dict:
`{'x': ..., 'y': ..., 'type': ..., 'color': ...}`. -/
structure Props where
  x : ℚ
  y : ℚ
  type : String
  color : String
deriving DecidableEq, Repr

/-- The `components` dict of the script (insertion order preserved,
as in Python 3.7+). -/
def components : List (String × Props) :=
  [ ("Wix Frontend", ⟨2, 5, "frontend", "#1FB8CD"⟩)
  , ("Cloudflare Workers", ⟨2, 4, "backend", "#DB4545"⟩)
  , ("R2 Storage", ⟨1, 3, "storage", "#2E8B57"⟩)
  , ("KV Store", ⟨2, 3, "storage", "#2E8B57"⟩)
  , ("D1 Database", ⟨3, 3, "storage", "#2E8B57"⟩)
  , ("Cloudflare AI", ⟨1.5, 2, "processing", "#5D878F"⟩)
  , ("RunPod", ⟨2.5, 2, "processing", "#5D878F"⟩)
  , ("Stripe", ⟨3.5, 1, "payment", "#D2BA4C"⟩)
  , ("GitHub", ⟨0.5, 4, "deployment", "#B4413C"⟩) ]

/-- One entry of the `layers` list. -/
structure Layer where
  name : String
  y : ℚ
  color : String
  alpha : ℚ
deriving DecidableEq, Repr

/-- The `layers` list of the script. -/
def layers : List Layer :=
  [ ⟨"Frontend", 5, "#1FB8CD", 0.1⟩
  , ⟨"Backend", 4, "#DB4545", 0.1⟩
  , ⟨"Storage", 3, "#2E8B57", 0.1⟩
  , ⟨"Processing", 2, "#5D878F", 0.1⟩
  , ⟨"Payment", 1, "#D2BA4C", 0.1⟩ ]

/-- One entry of `user_flow_arrows`: `{'start': (..), 'end': (..), 'color': ..}`. -/
structure FlowArrow where
  start : ℚ × ℚ
  stop : ℚ × ℚ
  color : String
deriving DecidableEq, Repr

/-- The `user_flow_arrows` list of the script (`stop` models the
Python key `end`, a reserved word in Lean). -/
def user_flow_arrows : List FlowArrow :=
  [ ⟨(2, 4.8), (2, 4.2), "blue"⟩
  , ⟨(1.8, 3.8), (1.3, 3.2), "blue"⟩
  , ⟨(2, 3.8), (2, 3.2), "blue"⟩
  , ⟨(2.2, 3.8), (2.7, 3.2), "blue"⟩
  , ⟨(1.8, 3.8), (1.6, 2.2), "blue"⟩
  , ⟨(2.2, 3.8), (2.4, 2.2), "blue"⟩
  , ⟨(2.5, 3.8), (3.3, 1.2), "blue"⟩ ]

/-- Arguments of one `fig.add_shape` call. Fields not passed by a call
keep the plotly defaults recorded here. -/
structure Shape where
  kind : String
  x0 : ℚ
  y0 : ℚ
  x1 : ℚ
  y1 : ℚ
  fillcolor : Option String := none
  line_color : Option String := none
  line_width : Option ℚ := none
  opacity : ℚ := 1
deriving DecidableEq, Repr

/-- Arguments of one `fig.add_annotation` call. Fields not passed by a
call keep the plotly defaults recorded here (`showarrow` defaults to
`true` in plotly; the calls that draw plain text pass `showarrow=False`
explicitly). -/
structure Annot where
  x : ℚ
  y : ℚ
  ax : Option ℚ := none
  ay : Option ℚ := none
  text : String := ""
  showarrow : Bool := true
  arrowcolor : Option String := none
  arrowwidth : Option ℚ := none
  font_color : Option String := none
  font_size : Option ℚ := none
  textangle : Option ℚ := none
  align : Option String := none
  bgcolor : Option String := none
  bordercolor : Option String := none
  borderwidth : Option ℚ := none
deriving DecidableEq, Repr

/-- One axis configuration passed to `update_layout`. -/
structure AxisCfg where
  range_lo : ℚ
  range_hi : ℚ
  showgrid : Bool
  showticklabels : Bool
  zeroline : Bool
deriving DecidableEq, Repr

/-- The `update_layout` arguments. -/
structure Layout where
  title : String
  xaxis : AxisCfg
  yaxis : AxisCfg
  plot_bgcolor : String
  showlegend : Bool
deriving DecidableEq, Repr

/-- The figure state: lists accumulate shapes and text/arrow marks in
call order; `written` records the paths passed to `write_image`. -/
structure Figure where
  shapes : List Shape := []
  annots : List Annot := []
  layout : Option Layout := none
  written : List String := []
deriving DecidableEq, Repr

/-- `fig.add_shape(...)` appends one shape. -/
def Figure.add_shape (fig : Figure) (s : Shape) : Figure :=
  { fig with shapes := fig.shapes ++ [s] }

/-- `fig.add_annotation(...)` appends one text/arrow mark. -/
def Figure.add_annot (fig : Figure) (a : Annot) : Figure :=
  { fig with annots := fig.annots ++ [a] }

/-- `fig.update_layout(...)` sets the layout. -/
def Figure.update_layout (fig : Figure) (l : Layout) : Figure :=
  { fig with layout := some l }

/-- `fig.write_image(path)` records the output path. -/
def Figure.write_image (fig : Figure) (path : String) : Figure :=
  { fig with written := fig.written ++ [path] }

/-- Python `str.replace(old, new)` restricted to a one-character `old`,
the only form the script uses (`name.replace(' ', '<br>')`): every
occurrence of the character is replaced by the string, nothing else
changes. (Structurally recursive so the kernel can evaluate it, unlike
`String.replace`.) -/
def replaceChar (s : String) (old : Char) (new : String) : String :=
  String.join (s.data.map (fun c => if c = old then new else String.singleton c))

/-- The first loop: for each component, `add_shape` of the box rectangle
then `add_annotation` of the name with spaces replaced by `<br>`. -/
def addComponentBoxes (comps : List (String × Props)) (fig : Figure) : Figure :=
  comps.foldl
    (fun fig np =>
      let name := np.1
      let props := np.2
      (fig.add_shape
        { kind := "rect"
          x0 := props.x - 0.3, y0 := props.y - 0.2
          x1 := props.x + 0.3, y1 := props.y + 0.2
          fillcolor := some props.color
          line_color := some "white", line_width := some 2
          opacity := 0.8 }).add_annot
        { x := props.x, y := props.y
          text := replaceChar name ' ' "<br>"
          showarrow := false
          font_color := some "white", font_size := some 9
          align := some "center" })
    fig

/-- The second loop: a background band rectangle per layer. -/
def addLayerBands (ls : List Layer) (fig : Figure) : Figure :=
  ls.foldl
    (fun fig layer =>
      fig.add_shape
        { kind := "rect"
          x0 := -0.2, y0 := layer.y - 0.4
          x1 := 4.2, y1 := layer.y + 0.4
          fillcolor := some layer.color
          opacity := layer.alpha
          line_width := some 0 })
    fig

/-- The third loop: a rotated gray label per layer. -/
def addLayerLabels (ls : List Layer) (fig : Figure) : Figure :=
  ls.foldl
    (fun fig layer =>
      fig.add_annot
        { x := -0.1, y := layer.y
          text := layer.name
          showarrow := false
          font_color := some "gray", font_size := some 11
          textangle := some 90
          align := some "center" })
    fig

/-- The single "Admin Bypass" arrow. -/
def addAdminBypass (fig : Figure) : Figure :=
  fig.add_annot
    { x := 2.8, y := 4.5, ax := some 2.2, ay := some 4.5
      arrowcolor := some "red", arrowwidth := some 3
      text := "Admin Bypass"
      font_color := some "red", font_size := some 8 }

/-- The loop over `user_flow_arrows`: an unlabeled arrow from start to end. -/
def addUserFlowArrows (arrows : List FlowArrow) (fig : Figure) : Figure :=
  arrows.foldl
    (fun fig arrow =>
      fig.add_annot
        { x := arrow.stop.1, y := arrow.stop.2
          ax := some arrow.start.1, ay := some arrow.start.2
          arrowcolor := some arrow.color, arrowwidth := some 2 })
    fig

/-- The GitHub-to-Workers integration arrow. -/
def addGithubArrow (fig : Figure) : Figure :=
  fig.add_annot
    { x := 1.7, y := 4, ax := some 0.8, ay := some 4
      arrowcolor := some "green", arrowwidth := some 2 }

/-- The two journey text boxes. -/
def addJourneyLabels (fig : Figure) : Figure :=
  (fig.add_annot
    { x := 4, y := 5.5
      text := "User Journey:<br>1. Upload Audio<br>2. AI Analysis<br>3. Preview<br>4. Payment<br>5. Download"
      showarrow := false
      font_color := some "blue", font_size := some 9
      align := some "left"
      bgcolor := some "rgba(255,255,255,0.8)"
      bordercolor := some "blue", borderwidth := some 1 }).add_annot
    { x := 4, y := 4.5
      text := "Admin Path:<br>• Token Bypass<br>• Full Access<br>• No Payment"
      showarrow := false
      font_color := some "red", font_size := some 9
      align := some "left"
      bgcolor := some "rgba(255,255,255,0.8)"
      bordercolor := some "red", borderwidth := some 1 }

/-- The `update_layout` call of the script. -/
def scriptLayout : Layout :=
  { title := "FWEA-I Audio System Architecture"
    xaxis := { range_lo := -0.5, range_hi := 5
               showgrid := false, showticklabels := false, zeroline := false }
    yaxis := { range_lo := 0.5, range_hi := 6
               showgrid := false, showticklabels := false, zeroline := false }
    plot_bgcolor := "white"
    showlegend := false }

/-- The whole script as a function of its three data tables, executed in
source order on an empty figure. -/
def buildFigure (comps : List (String × Props)) (ls : List Layer)
    (arrows : List FlowArrow) : Figure :=
  ((((addJourneyLabels
      (addGithubArrow
        (addUserFlowArrows arrows
          (addAdminBypass
            (addLayerLabels ls
              (addLayerBands ls
                (addComponentBoxes comps {}))))))).update_layout
        scriptLayout).write_image "fwea_architecture_updated.png"))

/-- The figure state after the component loop (line 39 of the source). -/
def figComponents : Figure := addComponentBoxes components {}

/-- The figure state after the layer-band loop (line 58 of the source). -/
def figLayerBands : Figure := addLayerBands layers figComponents

/-- The final figure of the script. -/
def finalFig : Figure := buildFigure components layers user_flow_arrows

/-- A mark is an arrow when the call passed the tail coordinates `ax`/`ay`. -/
def Annot.isArrow (a : Annot) : Bool := a.ax.isSome && a.ay.isSome

/-- `x` lies in the closed interval recorded by an axis configuration. -/
def AxisCfg.inRange (c : AxisCfg) (x : ℚ) : Bool :=
  decide (c.range_lo ≤ x) && decide (x ≤ c.range_hi)

/-- Lower-casing of a string, character by character (structurally
recursive counterpart of Python `str.lower` on ASCII names, used only to
state the layer/component alignment property). -/
def lowerStr (s : String) : String := String.mk (s.data.map Char.toLower)

/-- Claim C1: the component table places "Stripe" at position (3.5, 1)
with category "payment"; the rectangle drawn for it (the eighth shape,
since Stripe is the eighth component) is filled with the payment color
"#D2BA4C"; and the text mark drawn at its position (3.5, 1) has text
exactly "Stripe". -/
theorem stripe_box_color_and_label :
    components[7]? = some ("Stripe", ⟨3.5, 1, "payment", "#D2BA4C"⟩) ∧
    (finalFig.shapes[7]?).map Shape.fillcolor = some (some "#D2BA4C") ∧
    (finalFig.annots[7]?).map (fun a => ((a.x, a.y), a.text))
      = some (((3.5 : ℚ), (1 : ℚ)), "Stripe") := by decide

/-- Claim C2: the figure holds exactly nine arrows (seven user-flow
arrows, the admin bypass, the GitHub integration), and every arrow's
head coordinate (x, y) and tail coordinate (ax, ay) lie within the
declared axis ranges, x in [-0.5, 5] and y in [0.5, 6]. -/
theorem arrow_coords_within_axis_ranges :
    (finalFig.annots.filter Annot.isArrow).length = 9 ∧
    finalFig.annots.all (fun a =>
      !a.isArrow ||
      (scriptLayout.xaxis.inRange a.x && scriptLayout.yaxis.inRange a.y &&
       scriptLayout.xaxis.inRange (a.ax.getD 0) &&
       scriptLayout.yaxis.inRange (a.ay.getD 0))) = true := by decide

/-- Claim C3: the component loop adds one box rectangle per entry of the
component table, which has 9 entries, and the layer loop then adds one
band rectangle per entry of the layer table, which has 5 entries. -/
theorem shape_counts_match_tables :
    figComponents.shapes.length = components.length ∧ components.length = 9 ∧
    figLayerBands.shapes.length = figComponents.shapes.length + layers.length ∧
    layers.length = 5 := by decide

/-- Claim C4: the final layout sets the x-axis range to [-0.5, 5] and the
y-axis range to [0.5, 6], disables grid, tick labels and zero-lines on
both axes, sets the plot background to white, disables the legend, and
the script writes exactly one image, at the fixed relative path
"fwea_architecture_updated.png". -/
theorem layout_ranges_style_and_output_path :
    finalFig.layout = some scriptLayout ∧
    scriptLayout.xaxis = ⟨-0.5, 5, false, false, false⟩ ∧
    scriptLayout.yaxis = ⟨0.5, 6, false, false, false⟩ ∧
    scriptLayout.plot_bgcolor = "white" ∧
    scriptLayout.showlegend = false ∧
    finalFig.written = ["fwea_architecture_updated.png"] := by decide

/-- Claim C5: the label drawn at each component's position carries the
component's name with every space replaced by "<br>", and nothing else:
the nine label texts are exactly the nine names under that substitution,
in table order, each anchored at the component's (x, y). -/
theorem component_label_text_space_to_br :
    figComponents.annots.map Annot.text =
      ["Wix<br>Frontend", "Cloudflare<br>Workers", "R2<br>Storage", "KV<br>Store",
       "D1<br>Database", "Cloudflare<br>AI", "RunPod", "Stripe", "GitHub"] ∧
    figComponents.annots.map Annot.text
      = components.map (fun np => replaceChar np.1 ' ' "<br>") ∧
    figComponents.annots.map (fun a => (a.x, a.y))
      = components.map (fun np => (np.2.x, np.2.y)) := by decide

/-- Claim C6: in the final shape list all nine component boxes
(border width 2) precede all five layer bands (border width 0): the
component loop runs before the layer loop and nothing later adds shapes,
so in call-order compositing the bands are drawn atop the boxes. -/
theorem component_boxes_added_before_layer_bands :
    finalFig.shapes = figLayerBands.shapes ∧
    figLayerBands.shapes = figComponents.shapes ++ (addLayerBands layers {}).shapes ∧
    figComponents.shapes.length = 9 ∧
    figComponents.shapes.all (fun s => s.line_width == some 2) = true ∧
    (addLayerBands layers ({} : Figure)).shapes.length = 5 ∧
    (addLayerBands layers ({} : Figure)).shapes.all (fun s => s.line_width == some 0) = true := by
  decide

/-- Claim C7: the scene construction is deterministic: the script is a
pure function of its three literal data tables, so two runs on identical
input data build identical figures (same shapes, marks, layout and
output path, in the same order). Whether identical figures render to
identical bytes is up to the rendering backend, as the claim assumes. -/
theorem build_deterministic (c₁ c₂ : List (String × Props)) (l₁ l₂ : List Layer)
    (a₁ a₂ : List FlowArrow) (hc : c₁ = c₂) (hl : l₁ = l₂) (ha : a₁ = a₂) :
    buildFigure c₁ l₁ a₁ = buildFigure c₂ l₂ a₂ := by
  subst hc; subst hl; subst ha; rfl

/-- Claim C7, witness: two runs on the script's own tables agree. -/
theorem build_deterministic_witness :
    buildFigure components layers user_flow_arrows
      = buildFigure components layers user_flow_arrows :=
  build_deterministic components components layers layers
    user_flow_arrows user_flow_arrows rfl rfl rfl

/-- Claim C8: every shape in the final figure is a rectangle lying
entirely within the declared axis ranges: both x-extremes in [-0.5, 5]
and both y-extremes in [0.5, 6] (component boxes span x plus-minus 0.3
and y plus-minus 0.2; layer bands span [-0.2, 4.2] by y plus-minus 0.4). -/
theorem rect_shapes_within_axis_ranges :
    finalFig.shapes.all (fun s =>
      s.kind == "rect" &&
      scriptLayout.xaxis.inRange s.x0 && scriptLayout.xaxis.inRange s.x1 &&
      scriptLayout.yaxis.inRange s.y0 && scriptLayout.yaxis.inRange s.y1) = true := by decide

/-- Claim C9: every entry of `user_flow_arrows` starts strictly above
where it ends (its start y exceeds its end y, pointing downward through
the layers) and is colored "blue". -/
theorem user_flow_arrows_downward_and_blue :
    user_flow_arrows.all (fun a =>
      decide (a.stop.2 < a.start.2) && (a.color == "blue")) = true := by decide

/-- Claim C10: for every layer there is at least one component whose
category equals the lowercased layer name and whose y-coordinate equals
the layer's band center, so each band is aligned with a component of its
tier (Frontend/5, Backend/4, Storage/3, Processing/2, Payment/1). -/
theorem each_layer_has_aligned_component :
    layers.all (fun l => components.any (fun c =>
      c.2.type == lowerStr l.name && c.2.y == l.y)) = true := by decide

end ChartScript
